import Mathlib

/-!
Shallow embedding of `src/spring.h` (closed-form critically-damped spring
integrator) over the real numbers. C `float` values are modelled as `ℝ`,
`expf` as `Real.exp`, and out-pointer pairs as returned pairs. The stateful
wrapper classes become structures with functional update operations.
-/

noncomputable section

/-- Embeds `Spring_Exp` (src/spring.h line 38): `expf(-springFactor_dt)`. -/
def Spring_Exp (springFactor_dt : ℝ) : ℝ :=
  Real.exp (-springFactor_dt)

/-- Embeds `Spring_Premult_Update` (src/spring.h lines 21-28).
Returns `(P1, V1)` for the out-parameters `(outPos, outVel)`. -/
def Spring_Premult_Update (pos vel springFactor_dt springExp_dt : ℝ) : ℝ × ℝ :=
  let B := vel + springFactor_dt * pos
  let P1 := (pos + B) * springExp_dt
  let V1 := B * springExp_dt - springFactor_dt * P1
  (P1, V1)

/-- Embeds `Spring_Premult_Lerp` (src/spring.h lines 30-36). -/
def Spring_Premult_Lerp (pos vel targetPos springFactor_dt springExp_dt : ℝ) : ℝ × ℝ :=
  let diff := pos - targetPos
  let r := Spring_Premult_Update diff vel springFactor_dt springExp_dt
  (targetPos + r.1, r.2)

/-- Embeds `Spring_Update` (src/spring.h lines 43-56).
Returns `(Pdt, Vdt)` for the out-parameters `(outPos, outVel)`. -/
def Spring_Update (pos vel springFactor dt : ℝ) : ℝ × ℝ :=
  let springExp := Spring_Exp (springFactor * dt)
  let B := vel + springFactor * pos
  let Pdt := (pos + B * dt) * springExp
  let Vdt := B * springExp - springFactor * Pdt
  (Pdt, Vdt)

/-- Embeds `Spring_Lerp` (src/spring.h lines 58-64). -/
def Spring_Lerp (pos vel targetPos springFactor dt : ℝ) : ℝ × ℝ :=
  let diff := pos - targetPos
  let r := Spring_Update diff vel springFactor dt
  (targetPos + r.1, r.2)

/-- Modelled from the spec: the external angle-normalization helper
`float_AngleModDeg` is not part of this repository (src/spring.h uses it but
does not define it). Per the spec it maps a degree value to the equivalent
angle in the canonical range `(-180, 180]`, preserving angle equivalence
modulo 360. The unique such value is `x - 360 * ceil((x - 180) / 360)`. -/
def float_AngleModDeg (x : ℝ) : ℝ :=
  x - 360 * ⌈(x - 180) / 360⌉

/-- Embeds `Spring_LerpAngleDegree` (src/spring.h lines 66-72). -/
def Spring_LerpAngleDegree (pos vel targetPos springFactor dt : ℝ) : ℝ × ℝ :=
  let diff := float_AngleModDeg (pos - targetPos)
  let r := Spring_Update diff vel springFactor dt
  (float_AngleModDeg (targetPos + r.1), r.2)

/-- Embeds `Spring_VecUpdate` (src/spring.h lines 74-88): the same algorithm
generically over a type with `+`, `-` and real scalar multiplication. -/
def Spring_VecUpdate {T : Type} [AddCommGroup T] [Module ℝ T]
    (pos vel : T) (springFactor dt : ℝ) : T × T :=
  let springExp := Spring_Exp (springFactor * dt)
  let B := vel + springFactor • pos
  let Pdt := springExp • (pos + dt • B)
  let Vdt := springExp • B - springFactor • Pdt
  (Pdt, Vdt)

/-- Embeds `Spring_VecLerp` (src/spring.h lines 90-97). -/
def Spring_VecLerp {T : Type} [AddCommGroup T] [Module ℝ T]
    (pos vel targetPos : T) (springFactor dt : ℝ) : T × T :=
  let diff := pos - targetPos
  let r := Spring_VecUpdate diff vel springFactor dt
  (targetPos + r.1, r.2)

/-- Embeds the state of the generic wrapper class `SpringVec<T>`
(src/spring.h lines 99-145). -/
structure SpringVec (T : Type) where
  pos : T
  vel : T
  target : T

/-- Embeds `SpringVec::Reset`: `T()` value-initialization is the zero value. -/
def SpringVec.Reset {T : Type} [AddCommGroup T] [Module ℝ T]
    (_s : SpringVec T) : SpringVec T :=
  ⟨0, 0, 0⟩

/-- Embeds `SpringVec::Update` (src/spring.h lines 110-113). -/
def SpringVec.Update {T : Type} [AddCommGroup T] [Module ℝ T]
    (s : SpringVec T) (springFactor dt : ℝ) : SpringVec T :=
  let r := Spring_VecLerp s.pos s.vel s.target springFactor dt
  { s with pos := r.1, vel := r.2 }

/-- Embeds `SpringVec::GetTarget`. -/
def SpringVec.GetTarget {T : Type} (s : SpringVec T) : T := s.target

/-- Embeds `SpringVec::GetPos`. -/
def SpringVec.GetPos {T : Type} (s : SpringVec T) : T := s.pos

/-- Embeds `SpringVec::GetVel`. -/
def SpringVec.GetVel {T : Type} (s : SpringVec T) : T := s.vel

/-- Embeds `SpringVec::ForcePos` (src/spring.h lines 130-135): sets `pos` and
`target` to the argument and `vel` to the zero value `T()`. -/
def SpringVec.ForcePos {T : Type} [AddCommGroup T] [Module ℝ T]
    (_s : SpringVec T) (p : T) : SpringVec T :=
  ⟨p, 0, p⟩

/-- Embeds `SpringVec::SetTarget` (src/spring.h lines 137-140). -/
def SpringVec.SetTarget {T : Type} (s : SpringVec T) (t : T) : SpringVec T :=
  { s with target := t }

/-- Embeds the state of the plain scalar wrapper class `Spring`
(src/spring.h lines 147-192). -/
structure Spring where
  pos : ℝ
  vel : ℝ
  target : ℝ

/-- Embeds `Spring::Reset`. -/
def Spring.Reset (_s : Spring) : Spring := ⟨0, 0, 0⟩

/-- Embeds `Spring::SetTarget`. -/
def Spring.SetTarget (s : Spring) (t : ℝ) : Spring := { s with target := t }

/-- Embeds `Spring::Update` (src/spring.h lines 162-165). -/
def Spring.Update (s : Spring) (springFactor dt : ℝ) : Spring :=
  let r := Spring_Lerp s.pos s.vel s.target springFactor dt
  { s with pos := r.1, vel := r.2 }

/-- Embeds `Spring::GetTarget`. -/
def Spring.GetTarget (s : Spring) : ℝ := s.target

/-- Embeds `Spring::GetPos`. -/
def Spring.GetPos (s : Spring) : ℝ := s.pos

/-- Embeds `Spring::GetVel`. -/
def Spring.GetVel (s : Spring) : ℝ := s.vel

/-- Embeds `Spring::ForcePos` (src/spring.h lines 182-187). -/
def Spring.ForcePos (_s : Spring) (p : ℝ) : Spring := ⟨p, 0, p⟩

/-- Embeds the state of the angle-in-degrees wrapper class `SpringAngle`
(src/spring.h lines 195-240). -/
structure SpringAngle where
  pos : ℝ
  vel : ℝ
  target : ℝ

/-- Embeds `SpringAngle::Reset`. -/
def SpringAngle.Reset (_s : SpringAngle) : SpringAngle := ⟨0, 0, 0⟩

/-- Embeds `SpringAngle::SetTarget`. -/
def SpringAngle.SetTarget (s : SpringAngle) (t : ℝ) : SpringAngle :=
  { s with target := t }

/-- Embeds `SpringAngle::Update` (src/spring.h lines 210-213). -/
def SpringAngle.Update (s : SpringAngle) (springFactor dt : ℝ) : SpringAngle :=
  let r := Spring_LerpAngleDegree s.pos s.vel s.target springFactor dt
  { s with pos := r.1, vel := r.2 }

/-- Embeds `SpringAngle::GetTarget`. -/
def SpringAngle.GetTarget (s : SpringAngle) : ℝ := s.target

/-- Embeds `SpringAngle::GetPos`. -/
def SpringAngle.GetPos (s : SpringAngle) : ℝ := s.pos

/-- Embeds `SpringAngle::GetVel`. -/
def SpringAngle.GetVel (s : SpringAngle) : ℝ := s.vel

/-- Embeds `SpringAngle::ForcePos` (src/spring.h lines 230-235). -/
def SpringAngle.ForcePos (_s : SpringAngle) (p : ℝ) : SpringAngle := ⟨p, 0, p⟩

/-- Embeds the state of the precomputed-coefficient wrapper class
`Spring_Premult` (src/spring.h lines 242-281). -/
structure Spring_Premult where
  pos : ℝ
  vel : ℝ
  target : ℝ

/-- Embeds `Spring_Premult::Reset`. -/
def Spring_Premult.Reset (_s : Spring_Premult) : Spring_Premult := ⟨0, 0, 0⟩

/-- Embeds `Spring_Premult::SetTarget`. -/
def Spring_Premult.SetTarget (s : Spring_Premult) (t : ℝ) : Spring_Premult :=
  { s with target := t }

/-- Embeds `Spring_Premult::Update` (src/spring.h lines 257-261): the body
calls `Spring_LerpAngleDegree(&pos, &vel, pos, vel, target, springFactor,
springExp)`, passing `springExp` in the `dt` parameter position. -/
def Spring_Premult.Update (s : Spring_Premult) (springFactor springExp : ℝ) :
    Spring_Premult :=
  let r := Spring_LerpAngleDegree s.pos s.vel s.target springFactor springExp
  { s with pos := r.1, vel := r.2 }

/-- Embeds `Spring_Premult::GetTarget`. -/
def Spring_Premult.GetTarget (s : Spring_Premult) : ℝ := s.target

/-- Embeds `Spring_Premult::GetPos`. -/
def Spring_Premult.GetPos (s : Spring_Premult) : ℝ := s.pos

/-- Embeds `Spring_Premult::GetVel`. -/
def Spring_Premult.GetVel (s : Spring_Premult) : ℝ := s.vel

end

/-- C3: `Spring_Update` returns exactly the closed-form pair: with
`B = vel + springFactor * pos` and `decay = exp(-springFactor * dt)`, the new
position is `(pos + B * dt) * decay` and the new velocity is
`B * decay - springFactor * (new position)`. -/
theorem C3_spring_update_closed_form (pos vel springFactor dt : ℝ) :
    Spring_Update pos vel springFactor dt =
      ((pos + (vel + springFactor * pos) * dt) * Real.exp (-(springFactor * dt)),
       (vel + springFactor * pos) * Real.exp (-(springFactor * dt)) -
         springFactor *
           ((pos + (vel + springFactor * pos) * dt) * Real.exp (-(springFactor * dt)))) := by
  rfl

/-- C5: with `springFactor = 0`, `Spring_Update` degenerates to pure velocity
integration: it returns exactly `(pos + vel * dt, vel)`. -/
theorem C5_spring_update_zero_stiffness (pos vel dt : ℝ) :
    Spring_Update pos vel 0 dt = (pos + vel * dt, vel) := by
  simp [Spring_Update, Spring_Exp]

/-- C6: with `dt = 0`, `Spring_Update` is a no-op: it returns exactly
`(pos, vel)`. -/
theorem C6_spring_update_zero_dt (pos vel springFactor : ℝ) :
    Spring_Update pos vel springFactor 0 = (pos, vel) := by
  simp [Spring_Update, Spring_Exp]

/-- C7: `Spring_Lerp` is exactly `Spring_Update` applied to the difference
`pos - targetPos`, with `targetPos` added back to the resulting position and
the resulting velocity unchanged. -/
theorem C7_spring_lerp_shifts_update (pos vel targetPos springFactor dt : ℝ) :
    Spring_Lerp pos vel targetPos springFactor dt =
      (targetPos + (Spring_Update (pos - targetPos) vel springFactor dt).1,
       (Spring_Update (pos - targetPos) vel springFactor dt).2) := by
  rfl

/-- C9: after `ForcePos x` on the plain scalar wrapper `Spring` or the angle
wrapper `SpringAngle`, `GetPos` returns `x`, `GetVel` returns `0`, and
`GetTarget` returns `x`, whatever the prior state was. -/
theorem C9_forcepos_snaps_state (s : Spring) (a : SpringAngle) (x : ℝ) :
    (s.ForcePos x).GetPos = x ∧ (s.ForcePos x).GetVel = 0 ∧
      (s.ForcePos x).GetTarget = x ∧
    (a.ForcePos x).GetPos = x ∧ (a.ForcePos x).GetVel = 0 ∧
      (a.ForcePos x).GetTarget = x := by
  refine ⟨rfl, rfl, rfl, rfl, rfl, rfl⟩

/-- C10: the generic vector wrapper `SpringVec` does provide `ForcePos`, and
after `ForcePos p` the stored position equals `p`, the stored target equals
`p` (the target is snapped too), and the stored velocity equals the zero
value `T()`. -/
theorem C10_springvec_forcepos {T : Type} [AddCommGroup T] [Module ℝ T]
    (s : SpringVec T) (p : T) :
    (s.ForcePos p).pos = p ∧ (s.ForcePos p).target = p ∧
      (s.ForcePos p).vel = 0 := by
  refine ⟨rfl, rfl, rfl⟩

lemma float_AngleModDeg_mem (x : ℝ) :
    -180 < float_AngleModDeg x ∧ float_AngleModDeg x ≤ 180 := by
  unfold float_AngleModDeg
  constructor
  · have h := Int.ceil_lt_add_one ((x - 180) / 360)
    linarith
  · have h := Int.le_ceil ((x - 180) / 360)
    linarith

lemma float_AngleModDeg_sub_int (x : ℝ) (n : ℤ) :
    float_AngleModDeg (x - 360 * n) = float_AngleModDeg x := by
  unfold float_AngleModDeg
  have h : (x - 360 * n - 180) / 360 = (x - 180) / 360 - n := by ring
  rw [h, Int.ceil_sub_int]
  push_cast
  ring

lemma float_AngleModDeg_eq_self {x : ℝ} (h1 : -180 < x) (h2 : x ≤ 180) :
    float_AngleModDeg x = x := by
  unfold float_AngleModDeg
  have hc : ⌈(x - 180) / 360⌉ = 0 := by
    rw [Int.ceil_eq_iff]
    push_cast
    constructor <;> linarith
  rw [hc]
  norm_num

lemma float_AngleModDeg_modAdd (x y : ℝ) :
    float_AngleModDeg (float_AngleModDeg x + y) = float_AngleModDeg (x + y) := by
  have h : float_AngleModDeg x + y = (x + y) - 360 * (⌈(x - 180) / 360⌉ : ℤ) := by
    unfold float_AngleModDeg
    ring
  rw [h, float_AngleModDeg_sub_int]

/-- Claim C1, counterexample: at `pos = 1`, `vel = 1`, `springFactor = 1`,
`dt = 2`, the premultiplied update returns position `4 * exp(-2)` while
`Spring_Update` returns `5 * exp(-2)`; they are unequal and differ by
`exp(-2) > 1/10`, beyond any reasonable tolerance. -/
theorem C1_counterexample :
    (Spring_Premult_Update 1 1 (1 * 2) (Real.exp (-(1 * 2)))).1 ≠
        (Spring_Update 1 1 1 2).1 ∧
      1 / 10 <
        |(Spring_Premult_Update 1 1 (1 * 2) (Real.exp (-(1 * 2)))).1 -
            (Spring_Update 1 1 1 2).1| := by
  have hpos : (0 : ℝ) < Real.exp (-(1 * 2 : ℝ)) := Real.exp_pos _
  have hv1 : (Spring_Premult_Update 1 1 ((1 : ℝ) * 2) (Real.exp (-(1 * 2)))).1 =
      4 * Real.exp (-(1 * 2 : ℝ)) := by
    simp only [Spring_Premult_Update]
    ring
  have hv2 : (Spring_Update 1 1 1 2).1 = 5 * Real.exp (-(1 * 2 : ℝ)) := by
    simp only [Spring_Update, Spring_Exp]
    ring
  have hone : Real.exp 1 < 2.7182818286 := Real.exp_one_lt_d9
  have hexp0 : (0 : ℝ) < Real.exp 1 := Real.exp_pos 1
  have hsq : Real.exp ((1 : ℝ) * 2) = Real.exp 1 * Real.exp 1 := by
    rw [show ((1 : ℝ) * 2) = 1 + 1 by norm_num, Real.exp_add]
  have hlt10 : Real.exp ((1 : ℝ) * 2) < 10 := by nlinarith
  have hten : (1 : ℝ) / 10 < 1 / Real.exp ((1 : ℝ) * 2) :=
    one_div_lt_one_div_of_lt (Real.exp_pos _) hlt10
  have hEinv : Real.exp (-(1 * 2 : ℝ)) = 1 / Real.exp ((1 : ℝ) * 2) := by
    rw [Real.exp_neg, one_div]
  refine ⟨?_, ?_⟩
  · rw [hv1, hv2]
    intro h
    have h45 : (4 : ℝ) = 5 := mul_right_cancel₀ (ne_of_gt hpos) h
    norm_num at h45
  · rw [hv1, hv2]
    have habs : |4 * Real.exp (-(1 * 2 : ℝ)) - 5 * Real.exp (-(1 * 2 : ℝ))| =
        Real.exp (-(1 * 2 : ℝ)) := by
      rw [show 4 * Real.exp (-(1 * 2 : ℝ)) - 5 * Real.exp (-(1 * 2 : ℝ)) =
          -Real.exp (-(1 * 2 : ℝ)) by ring, abs_neg, abs_of_pos hpos]
    rw [habs, hEinv]
    exact hten

/-- Claim C1, amended: the premultiplied form assumes `dt = 1` (per the code
comment "Assume DT = 1"); at `dt = 1`, for every `pos`, `vel`,
`springFactor`, `Spring_Premult_Update` with `springFactor_dt =
springFactor * 1` and `springExp_dt = exp(-springFactor * 1)` returns
exactly the pair returned by `Spring_Update` with `dt = 1`. -/
theorem C1_amended_premult_matches_at_dt_one (pos vel springFactor : ℝ) :
    Spring_Premult_Update pos vel (springFactor * 1)
        (Real.exp (-(springFactor * 1))) =
      Spring_Update pos vel springFactor 1 := by
  simp only [Spring_Premult_Update, Spring_Update, Spring_Exp, Prod.mk.injEq]
  constructor <;> ring

/-- Claim C4: applying `Spring_Update` with `dt1 ≥ 0` and then with
`dt2 ≥ 0` yields exactly (over real arithmetic) the pair produced by a
single `Spring_Update` call with `dt1 + dt2`. -/
theorem C4_spring_update_composable (pos vel springFactor dt1 dt2 : ℝ)
    (_h1 : 0 ≤ dt1) (_h2 : 0 ≤ dt2) :
    Spring_Update (Spring_Update pos vel springFactor dt1).1
        (Spring_Update pos vel springFactor dt1).2 springFactor dt2 =
      Spring_Update pos vel springFactor (dt1 + dt2) := by
  simp only [Spring_Update, Spring_Exp, Prod.mk.injEq]
  have hexp : Real.exp (-(springFactor * (dt1 + dt2))) =
      Real.exp (-(springFactor * dt1)) * Real.exp (-(springFactor * dt2)) := by
    rw [← Real.exp_add]
    congr 1
    ring
  rw [hexp]
  constructor <;> ring

/-- Claim C4, witness: the composability theorem applied at
`pos = 0, vel = 0, springFactor = 1, dt1 = dt2 = 1`. -/
theorem C4_spring_update_composable_witness :
    (0 : ℝ) ≤ 1 ∧ (0 : ℝ) ≤ 1 ∧
      Spring_Update (Spring_Update 0 0 1 1).1 (Spring_Update 0 0 1 1).2 1 1 =
        Spring_Update 0 0 1 (1 + 1) :=
  ⟨zero_le_one, zero_le_one,
    C4_spring_update_composable 0 0 1 1 1 zero_le_one zero_le_one⟩

/-- Claim C2, code-bug evidence: `Spring_Premult::Update` does not advance the
state via `Spring_Premult_Lerp`; its body calls `Spring_LerpAngleDegree`,
passing the precomputed `springExp` argument in the `dt` parameter position.
At the state `{pos = 200, vel = 0, target = 0}` with the valid precomputed
pair `springFactor_dt = 0`, `springExp_dt = exp(-0) = 1`, the wrapper stores
position `-160` (the angle-wrapped value), while `Spring_Premult_Lerp` on the
same inputs returns position `200`. -/
theorem C2_premult_update_calls_angle_lerp :
    Real.exp (-(0 : ℝ)) = 1 ∧
      ((⟨200, 0, 0⟩ : Spring_Premult).Update 0 1).GetPos = -160 ∧
        (Spring_Premult_Lerp 200 0 0 0 1).1 = 200 := by
  have hm200 : float_AngleModDeg 200 = -160 := by
    unfold float_AngleModDeg
    have hc : ⌈((200 : ℝ) - 180) / 360⌉ = 1 := by
      rw [Int.ceil_eq_iff]
      constructor <;> norm_num
    rw [hc]
    norm_num
  have hmneg : float_AngleModDeg (-160) = -160 :=
    float_AngleModDeg_eq_self (by norm_num) (by norm_num)
  have hS : Spring_Update (-160) 0 0 1 = (-160, 0) := by
    simp [Spring_Update, Spring_Exp]
  refine ⟨by simp, ?_, ?_⟩
  · simp only [Spring_Premult.Update, Spring_Premult.GetPos, Spring_LerpAngleDegree]
    norm_num [hm200, hS, hmneg]
  · norm_num [Spring_Premult_Lerp, Spring_Premult_Update]

/-- Claim C8: `Spring_LerpAngleDegree` computes the initial difference through
the angle normalizer and re-wraps the final `targetPos + diffDt`; the
normalizer maps into `(-180, 180]` preserving equivalence modulo 360; and for
`pos = 179`, `target = -179`, `vel = 0` and any `springFactor > 0`, `dt > 0`,
the new position lies strictly between 0 and 2 degrees ahead of `179` in the
`+` direction (toward `180`), not backward through `0`. -/
theorem C8_lerp_angle_degree_wraparound :
    (∀ x : ℝ, -180 < float_AngleModDeg x ∧ float_AngleModDeg x ≤ 180 ∧
        ∃ n : ℤ, x - float_AngleModDeg x = 360 * n) ∧
      (∀ pos vel targetPos springFactor dt : ℝ,
        Spring_LerpAngleDegree pos vel targetPos springFactor dt =
          (float_AngleModDeg (targetPos +
              (Spring_Update (float_AngleModDeg (pos - targetPos)) vel
                springFactor dt).1),
            (Spring_Update (float_AngleModDeg (pos - targetPos)) vel
              springFactor dt).2)) ∧
      (∀ springFactor dt : ℝ, 0 < springFactor → 0 < dt →
        0 < float_AngleModDeg
            ((Spring_LerpAngleDegree 179 0 (-179) springFactor dt).1 - 179) ∧
          float_AngleModDeg
            ((Spring_LerpAngleDegree 179 0 (-179) springFactor dt).1 - 179) < 2) := by
  refine ⟨?_, ?_, ?_⟩
  · intro x
    refine ⟨(float_AngleModDeg_mem x).1, (float_AngleModDeg_mem x).2,
      ⟨⌈(x - 180) / 360⌉, ?_⟩⟩
    unfold float_AngleModDeg
    ring
  · intro pos vel targetPos springFactor dt
    rfl
  · intro k dt hk hdt
    have hm358 : float_AngleModDeg (179 - -179) = -2 := by
      have h358 : (179 : ℝ) - -179 = 358 := by norm_num
      rw [h358]
      unfold float_AngleModDeg
      have hc : ⌈((358 : ℝ) - 180) / 360⌉ = 1 := by
        rw [Int.ceil_eq_iff]
        constructor <;> norm_num
      rw [hc]
      norm_num
    have hu : 0 < k * dt := mul_pos hk hdt
    have hEpos : 0 < Real.exp (-(k * dt)) := Real.exp_pos _
    have hF : k * dt + 1 < Real.exp (k * dt) := Real.add_one_lt_exp (ne_of_gt hu)
    have hEF : Real.exp (-(k * dt)) * Real.exp (k * dt) = 1 := by
      rw [← Real.exp_add]
      simp
    have hP : (Spring_Update (-2) 0 k dt).1 =
        (-2 + (0 + k * -2) * dt) * Real.exp (-(k * dt)) := rfl
    have hPlt : (Spring_Update (-2) 0 k dt).1 < 0 := by
      rw [hP]
      nlinarith [mul_pos (show (0 : ℝ) < 2 + 2 * (k * dt) by nlinarith) hEpos]
    have hPgt : -2 < (Spring_Update (-2) 0 k dt).1 := by
      rw [hP]
      have h2 : (1 + k * dt) * Real.exp (-(k * dt)) <
          Real.exp (k * dt) * Real.exp (-(k * dt)) :=
        mul_lt_mul_of_pos_right (by linarith) hEpos
      have h3 : (1 + k * dt) * Real.exp (-(k * dt)) < 1 := by
        calc (1 + k * dt) * Real.exp (-(k * dt)) <
            Real.exp (k * dt) * Real.exp (-(k * dt)) := h2
          _ = 1 := by rw [mul_comm]; exact hEF
      nlinarith [h3]
    have hm1 : (Spring_LerpAngleDegree 179 0 (-179) k dt).1 =
        float_AngleModDeg (-179 + (Spring_Update (-2) 0 k dt).1) := by
      simp only [Spring_LerpAngleDegree, hm358]
    have hkey : float_AngleModDeg
        ((Spring_LerpAngleDegree 179 0 (-179) k dt).1 - 179) =
          (Spring_Update (-2) 0 k dt).1 + 2 := by
      rw [hm1, sub_eq_add_neg, float_AngleModDeg_modAdd]
      have harg : -179 + (Spring_Update (-2) 0 k dt).1 + -179 =
          ((Spring_Update (-2) 0 k dt).1 + 2) - 360 * ((1 : ℤ) : ℝ) := by
        push_cast
        ring
      rw [harg, float_AngleModDeg_sub_int]
      exact float_AngleModDeg_eq_self (by linarith) (by linarith)
    rw [hkey]
    constructor <;> linarith

/-- Claim C8, witness: the wraparound theorem applied at
`springFactor = 1`, `dt = 1`. -/
theorem C8_lerp_angle_degree_wraparound_witness :
    (0 : ℝ) < 1 ∧
      0 < float_AngleModDeg ((Spring_LerpAngleDegree 179 0 (-179) 1 1).1 - 179) ∧
        float_AngleModDeg ((Spring_LerpAngleDegree 179 0 (-179) 1 1).1 - 179) < 2 :=
  ⟨one_pos, (C8_lerp_angle_degree_wraparound.2.2 1 1 one_pos one_pos).1,
    (C8_lerp_angle_degree_wraparound.2.2 1 1 one_pos one_pos).2⟩

/-- Claim C10, witness: the `SpringVec` ForcePos theorem applied at the
concrete instance `T = ℝ`, state `{1, 2, 3}` and argument `5`. -/
theorem C10_springvec_forcepos_witness :
    ((⟨1, 2, 3⟩ : SpringVec ℝ).ForcePos 5).pos = 5 ∧
      ((⟨1, 2, 3⟩ : SpringVec ℝ).ForcePos 5).target = 5 ∧
        ((⟨1, 2, 3⟩ : SpringVec ℝ).ForcePos 5).vel = 0 :=
  C10_springvec_forcepos (⟨1, 2, 3⟩ : SpringVec ℝ) 5
